import Mathlib

/-!
Verification of the realtime session client (frontend/src/services/websocket.ts),
shallowly embedded in Lean 4.  The `WebSocketService` class is modelled as a
pure state record `WSState`; each method becomes a function from state to state
together with its observable effects (frames written, timers scheduled, socket
close actions).  Promises and callbacks are identified by natural-number ids;
JSON payloads are association lists of key/value pairs.
-/

namespace WS

/-- The seven inbound event kinds the dispatcher distinguishes
(the catch-all branch of `handleMessage` is `chatMessage`). -/
inductive EventKind
  | chatMessage
  | reaction
  | userStatus
  | notification
  | messageEdited
  | messageDeleted
  | readReceipt
deriving DecidableEq, Repr

/-- JSON leaf values appearing in wire frames. -/
inductive JVal
  | jstr (s : String)
  | jnum (n : Int)
  | jbool (b : Bool)
  | jnull
deriving DecidableEq, Repr

/-- A JSON object: an association list of keys to values.  Wire objects in
this protocol have no duplicate keys, so first-match lookup models JS field
access. -/
abbrev JObj := List (String × JVal)

/-- Ready states of the browser WebSocket. -/
inductive ReadyState
  | Connecting
  | Open
  | Closing
  | Closed
deriving DecidableEq, Repr

/-- A transport handle: identity, ready state and the room whose URL it was
opened against. -/
structure Socket where
  id : Nat
  readyState : ReadyState
  room : String
deriving DecidableEq, Repr

/-- The mutable fields of the `WebSocketService` singleton.  Promise ids stand
for promise object identity; `reconnectTimeout` holds the delay of the pending
reconnect timer when one is scheduled. -/
structure WSState where
  socket : Option Socket
  reconnectAttempts : Nat
  reconnectTimeout : Option Nat
  heartbeatOn : Bool
  lastHeartbeat : Nat
  messageCallbacks : List Nat
  reactionCallbacks : List Nat
  userStatusCallbacks : List Nat
  notificationCallbacks : List Nat
  messageEditedCallbacks : List Nat
  messageDeletedCallbacks : List Nat
  readReceiptCallbacks : List Nat
  connectionPromise : Option Nat
  nextPromiseId : Nat
  nextSocketId : Nat
deriving DecidableEq, Repr

/-- Field initialisers of the class declaration. -/
def initialState : WSState :=
  { socket := none
    reconnectAttempts := 0
    reconnectTimeout := none
    heartbeatOn := false
    lastHeartbeat := 0
    messageCallbacks := []
    reactionCallbacks := []
    userStatusCallbacks := []
    notificationCallbacks := []
    messageEditedCallbacks := []
    messageDeletedCallbacks := []
    readReceiptCallbacks := []
    connectionPromise := none
    nextPromiseId := 0
    nextSocketId := 0 }

/-- `private maxReconnectAttempts = 5`. -/
def maxReconnectAttempts : Nat := 5

/-- `private reconnectDelay = 1000`. -/
def reconnectDelay : Nat := 1000

/-- The backoff predicate the guard of `attemptReconnect` evaluates:
`this.reconnectAttempts < this.maxReconnectAttempts`. -/
def shouldContinue (attempt : Nat) : Bool :=
  attempt < maxReconnectAttempts

/-- The delay `attemptReconnect` passes to `setTimeout`:
`this.reconnectDelay * this.reconnectAttempts` after the increment. -/
def nextDelay (attempt : Nat) : Nat :=
  reconnectDelay * attempt

/-- `attemptReconnect`: if the attempt counter is below the maximum, increment
it and schedule a reconnect timer with delay `reconnectDelay * attempts`
(post-increment value); otherwise do nothing.  Returns the new state and the
scheduled delay, `none` when no timer was scheduled. -/
def attemptReconnect (s : WSState) : WSState × Option Nat :=
  if shouldContinue s.reconnectAttempts then
    let a := s.reconnectAttempts + 1
    ({ s with reconnectAttempts := a, reconnectTimeout := some (nextDelay a) },
      some (nextDelay a))
  else (s, none)

/-- The `onclose` handler: stop the heartbeat, clear the in-flight promise,
and invoke the reconnection path unless the close code is the explicit-close
code 1000.  Returns the new state and the delay of any scheduled timer. -/
def handleClose (code : Nat) (s : WSState) : WSState × Option Nat :=
  let s1 := { s with heartbeatOn := false, connectionPromise := none }
  if code ≠ 1000 then attemptReconnect s1 else (s1, none)

/-- Delays scheduled by `n` consecutive abnormal closes (code 1006) starting
from state `s`, with no successful open in between. -/
def closeSequence : Nat → WSState → List (Option Nat)
  | 0, _ => []
  | n + 1, s =>
      let r := handleClose 1006 s
      r.2 :: closeSequence n r.1

/-- What a call to `connect` did: which promise object it returned, whether
that promise was resolved immediately with an already-open socket, and whether
the call constructed a new transport. -/
structure ConnectOutcome where
  promiseId : Nat
  immediateSocket : Option Socket
  createdSocket : Bool
deriving DecidableEq, Repr

/-- `connect(roomName)`: if a connection promise is in flight, return it
unchanged.  Otherwise create a fresh promise; if the socket is already open,
resolve it immediately with that socket; otherwise construct a new transport
in `Connecting` state for the given room. -/
def connect (roomName : String) (s : WSState) : ConnectOutcome × WSState :=
  match s.connectionPromise with
  | some p =>
      ({ promiseId := p, immediateSocket := none, createdSocket := false }, s)
  | none =>
      let p := s.nextPromiseId
      match s.socket with
      | some sock =>
          if sock.readyState = ReadyState.Open then
            ({ promiseId := p, immediateSocket := some sock, createdSocket := false },
              { s with connectionPromise := some p, nextPromiseId := p + 1 })
          else
            let newSock : Socket :=
              { id := s.nextSocketId, readyState := ReadyState.Connecting, room := roomName }
            ({ promiseId := p, immediateSocket := none, createdSocket := true },
              { s with socket := some newSock
                       connectionPromise := some p
                       nextPromiseId := p + 1
                       nextSocketId := s.nextSocketId + 1 })
      | none =>
          let newSock : Socket :=
            { id := s.nextSocketId, readyState := ReadyState.Connecting, room := roomName }
          ({ promiseId := p, immediateSocket := none, createdSocket := true },
            { s with socket := some newSock
                     connectionPromise := some p
                     nextPromiseId := p + 1
                     nextSocketId := s.nextSocketId + 1 })

/-- `disconnect()`: stop the heartbeat, cancel any pending reconnect timer,
close the socket (if any) with the explicit-close code 1000, clear the
in-flight promise and reset the attempt counter.  Returns the new state and
the close action performed, as socket id paired with close code. -/
def disconnect (s : WSState) : WSState × Option (Nat × Nat) :=
  let closeAction := s.socket.map fun sock => (sock.id, 1000)
  ({ s with heartbeatOn := false
            reconnectTimeout := none
            socket := none
            connectionPromise := none
            reconnectAttempts := 0 },
    closeAction)

/-- Callbacks are identified by ids; `throws` says which callbacks raise an
exception when invoked.  `runCallbacks` models `Array.prototype.forEach` under
JS exception semantics: a throwing callback aborts the iteration and the
exception propagates.  Returns the trace of invoked callbacks and whether an
exception escaped. -/
def runCallbacks (throws : Nat → Bool) : List Nat → List Nat × Bool
  | [] => ([], false)
  | c :: rest =>
      if throws c then ([c], true)
      else
        let r := runCallbacks throws rest
        (c :: r.1, r.2)

/-- The subscriber list a kind dispatches to. -/
def callbacksFor (s : WSState) : EventKind → List Nat
  | EventKind.chatMessage => s.messageCallbacks
  | EventKind.reaction => s.reactionCallbacks
  | EventKind.userStatus => s.userStatusCallbacks
  | EventKind.notification => s.notificationCallbacks
  | EventKind.messageEdited => s.messageEditedCallbacks
  | EventKind.messageDeleted => s.messageDeletedCallbacks
  | EventKind.readReceipt => s.readReceiptCallbacks

/-- The if/else chain of `handleMessage` selecting a subscriber list from the
payload's `type` field; anything unrecognised falls through to the regular
message branch. -/
def classify (data : JObj) : EventKind :=
  if data.lookup "type" = some (JVal.jstr "reaction") then EventKind.reaction
  else if data.lookup "type" = some (JVal.jstr "user_status") then EventKind.userStatus
  else if data.lookup "type" = some (JVal.jstr "notification") then EventKind.notification
  else if data.lookup "type" = some (JVal.jstr "message_edited") then EventKind.messageEdited
  else if data.lookup "type" = some (JVal.jstr "message_deleted") then EventKind.messageDeleted
  else if data.lookup "type" = some (JVal.jstr "read_receipt") then EventKind.readReceipt
  else EventKind.chatMessage

/-- `handleMessage(data)`: classify the payload and invoke every callback of
the selected list with it.  Returns the selected kind, the trace of invoked
callbacks and whether a callback exception escaped the dispatch. -/
def handleMessage (throws : Nat → Bool) (data : JObj) (s : WSState) :
    EventKind × List Nat × Bool :=
  let k := classify data
  let r := runCallbacks throws (callbacksFor s k)
  (k, r.1, r.2)

/-- Observable outcome of processing one inbound frame: which kind was
dispatched with which invoked callbacks (`none` when nothing was dispatched),
and whether the catch block reported a diagnostic via `console.error`. -/
structure MsgOutcome where
  dispatched : Option (EventKind × List Nat)
  diagReported : Bool
deriving DecidableEq, Repr

/-- The `onmessage` handler installed by `startHeartbeat` (the active handler
once the connection is open).  `parsed` is the result of `JSON.parse` on the
frame text, `none` when parsing threw.  The handler first updates the
last-seen timestamp, then inside try/catch: a parse failure is reported and
dropped; a `pong` payload returns early without dispatch; anything else goes
to `handleMessage`, and an exception escaping a callback is caught and
reported by the same catch block.  The handler itself always returns
normally. -/
def onMessageEvent (throws : Nat → Bool) (now : Nat) (parsed : Option JObj)
    (s : WSState) : WSState × MsgOutcome :=
  let s1 := { s with lastHeartbeat := now }
  match parsed with
  | none => (s1, { dispatched := none, diagReported := true })
  | some data =>
      if data.lookup "type" = some (JVal.jstr "pong") then
        (s1, { dispatched := none, diagReported := false })
      else
        let r := handleMessage throws data s1
        (s1, { dispatched := some (r.1, r.2.1), diagReported := r.2.2 })

/-- `this.socket && this.socket.readyState === WebSocket.OPEN`. -/
def readyOpen (s : WSState) : Bool :=
  match s.socket with
  | some sock => sock.readyState = ReadyState.Open
  | none => false

/-- `sendMessage(message)`: when open, write the bare legacy frame carrying
`message` and `reply_to` and nothing else; otherwise write nothing.
`replyTo = none` models an `undefined` field, which `JSON.stringify` omits
from the frame.  Returns the list of frames written. -/
def sendMessage (msg : JVal) (replyTo : Option JVal) (s : WSState) : List JObj :=
  if readyOpen s then
    [("message", msg) :: (replyTo.map fun r => [("reply_to", r)]).getD []]
  else []

/-- `sendReaction(messageId, emoji)`. -/
def sendReaction (messageId : Int) (emoji : String) (s : WSState) : List JObj :=
  if readyOpen s then
    [[("type", JVal.jstr "reaction"), ("message_id", JVal.jnum messageId),
      ("emoji", JVal.jstr emoji)]]
  else []

/-- `sendReadReceipt(messageId)`. -/
def sendReadReceipt (messageId : Int) (s : WSState) : List JObj :=
  if readyOpen s then
    [[("type", JVal.jstr "read_receipt"), ("message_id", JVal.jnum messageId)]]
  else []

/-- `editMessage(messageId, content)`. -/
def editMessage (messageId : Int) (content : String) (s : WSState) : List JObj :=
  if readyOpen s then
    [[("type", JVal.jstr "edit_message"), ("message_id", JVal.jnum messageId),
      ("content", JVal.jstr content)]]
  else []

/-- `deleteMessage(messageId)`. -/
def deleteMessage (messageId : Int) (s : WSState) : List JObj :=
  if readyOpen s then
    [[("type", JVal.jstr "delete_message"), ("message_id", JVal.jnum messageId)]]
  else []

/-- `replyToMessage(messageId, content, replyToId?)`: writes the bare frame
with `message` and `reply_to`; the `messageId` argument is not put on the
wire.  `replyToId = none` models an omitted `undefined` field. -/
def replyToMessage (_messageId : Int) (content : String) (replyToId : Option Int)
    (s : WSState) : List JObj :=
  if readyOpen s then
    [("message", JVal.jstr content) ::
      (replyToId.map fun r => [("reply_to", JVal.jnum r)]).getD []]
  else []

/-- One tick of the `startHeartbeat` interval: send a ping frame if and only
if the socket is open. -/
def heartbeatTick (s : WSState) : List JObj :=
  if readyOpen s then [[("type", JVal.jstr "ping")]] else []

/-- The `onMessage` .. `onReadReceipt` registration methods, collapsed by
kind: push the callback onto the kind's list. -/
def onEvent (k : EventKind) (cb : Nat) (s : WSState) : WSState :=
  match k with
  | EventKind.chatMessage => { s with messageCallbacks := s.messageCallbacks ++ [cb] }
  | EventKind.reaction => { s with reactionCallbacks := s.reactionCallbacks ++ [cb] }
  | EventKind.userStatus => { s with userStatusCallbacks := s.userStatusCallbacks ++ [cb] }
  | EventKind.notification => { s with notificationCallbacks := s.notificationCallbacks ++ [cb] }
  | EventKind.messageEdited => { s with messageEditedCallbacks := s.messageEditedCallbacks ++ [cb] }
  | EventKind.messageDeleted => { s with messageDeletedCallbacks := s.messageDeletedCallbacks ++ [cb] }
  | EventKind.readReceipt => { s with readReceiptCallbacks := s.readReceiptCallbacks ++ [cb] }

/-- The event-name string the `off` switch statement matches for each kind. -/
def offName : EventKind → String
  | EventKind.chatMessage => "message"
  | EventKind.reaction => "reaction"
  | EventKind.userStatus => "user_status"
  | EventKind.notification => "notification"
  | EventKind.messageEdited => "message_edited"
  | EventKind.messageDeleted => "message_deleted"
  | EventKind.readReceipt => "read_receipt"

/-- The list edit `off` performs on the selected list: with a callback,
`indexOf` then `splice(index, 1)` when found, i.e. remove the first equal
element; without one, truncate the list to length 0. -/
def offEdit (cb : Option Nat) (l : List Nat) : List Nat :=
  match cb with
  | some c => if c ∈ l then l.eraseIdx (l.indexOf c) else l
  | none => []

/-- `off(event, callback?)`: select the list by the event-name string (an
unrecognised name selects nothing and the call is a no-op) and apply
`offEdit` to it. -/
def off (event : String) (cb : Option Nat) (s : WSState) : WSState :=
  if event = "message" then { s with messageCallbacks := offEdit cb s.messageCallbacks }
  else if event = "reaction" then { s with reactionCallbacks := offEdit cb s.reactionCallbacks }
  else if event = "user_status" then { s with userStatusCallbacks := offEdit cb s.userStatusCallbacks }
  else if event = "notification" then { s with notificationCallbacks := offEdit cb s.notificationCallbacks }
  else if event = "message_edited" then { s with messageEditedCallbacks := offEdit cb s.messageEditedCallbacks }
  else if event = "message_deleted" then { s with messageDeletedCallbacks := offEdit cb s.messageDeletedCallbacks }
  else if event = "read_receipt" then { s with readReceiptCallbacks := offEdit cb s.readReceiptCallbacks }
  else s

/-! ### Helper lemmas -/

/-- Updating the last-seen timestamp does not change any subscriber list. -/
theorem callbacksFor_set_lastHeartbeat (s : WSState) (now : Nat) (k : EventKind) :
    callbacksFor { s with lastHeartbeat := now } k = callbacksFor s k := by
  cases k <;> rfl

/-- `forEach` under exception semantics: with every callback before `c`
non-throwing and `c` throwing, the trace is exactly the prefix plus `c` and
the exception escapes. -/
theorem runCallbacks_append_throw (throws : Nat → Bool) :
    ∀ (pre : List Nat) (c : Nat) (post : List Nat),
      (∀ x ∈ pre, throws x = false) → throws c = true →
      runCallbacks throws (pre ++ c :: post) = (pre ++ [c], true) := by
  intro pre
  induction pre with
  | nil =>
      intro c post _ hc
      simp [runCallbacks, hc]
  | cons a rest ih =>
      intro c post hpre hc
      have ha : throws a = false := hpre a (List.mem_cons_self a rest)
      have hrest : ∀ x ∈ rest, throws x = false := fun x hx =>
        hpre x (List.mem_cons_of_mem a hx)
      simp [runCallbacks, ha, ih c post hrest hc]

/-- `indexOf` followed by `splice(index, 1)` removes the first equal element. -/
theorem offEdit_some (c : Nat) (l : List Nat) : offEdit (some c) l = l.erase c := by
  unfold offEdit
  by_cases h : c ∈ l
  · simp [h]
  · simp [h, List.erase_of_not_mem h]

/-- `off` with a callback rewrites the selected kind's list to the
first-match-erased list. -/
theorem off_callbacksFor_some (k : EventKind) (cb : Nat) (s : WSState) :
    callbacksFor (off (offName k) (some cb) s) k = (callbacksFor s k).erase cb := by
  cases k <;> simp [off, offName, callbacksFor, offEdit_some]

/-- `off` without a callback clears the selected kind's list. -/
theorem off_callbacksFor_none (k : EventKind) (s : WSState) :
    callbacksFor (off (offName k) none s) k = [] := by
  cases k <;> simp [off, offName, callbacksFor, offEdit]

/-- Registration appends to the selected kind's list. -/
theorem onEvent_callbacksFor (k : EventKind) (cb : Nat) (s : WSState) :
    callbacksFor (onEvent k cb s) k = callbacksFor s k ++ [cb] := by
  cases k <;> rfl

/-! ### Claim theorems -/

/-- C1: the reconnection path schedules its retry with delay `1000 * n`
milliseconds for the n-th attempt, `n ∈ [1, 5]`; from a fresh state, five
consecutive abnormal closes schedule delays 1000, 2000, 3000, 4000, 5000 ms
and a sixth schedules nothing; `shouldContinue 5` is false and
`shouldContinue 4` is true. -/
theorem reconnect_linear_backoff_and_cutoff :
    (∀ n : Nat, 1 ≤ n → n ≤ 5 → ∀ s : WSState, s.reconnectAttempts = n - 1 →
      (attemptReconnect s).2 = some (1000 * n) ∧
      (attemptReconnect s).1.reconnectAttempts = n) ∧
    closeSequence 6 initialState =
      [some 1000, some 2000, some 3000, some 4000, some 5000, none] ∧
    shouldContinue 5 = false ∧ shouldContinue 4 = true := by
  refine ⟨?_, by decide, by decide, by decide⟩
  intro n h1 h5 s hs
  have hc : shouldContinue s.reconnectAttempts = true := by
    simp only [shouldContinue, maxReconnectAttempts, hs, decide_eq_true_eq]
    omega
  have hn : s.reconnectAttempts + 1 = n := by omega
  constructor
  · simp [attemptReconnect, hc, nextDelay, reconnectDelay, hn]
  · simp [attemptReconnect, hc, hn]

/-- C1 witness: at attempt counter 2 the third retry is scheduled at 3000 ms. -/
theorem reconnect_linear_backoff_and_cutoff_witness :
    (attemptReconnect { initialState with reconnectAttempts := 2 }).2 = some 3000 := by
  have h := (reconnect_linear_backoff_and_cutoff.1 3 (by decide) (by decide)
    { initialState with reconnectAttempts := 2 } rfl).1
  simpa using h

/-- C2: a `connect` call while a connection promise is in flight returns that
identical promise and leaves the state (in particular the transport) entirely
unchanged; with no in-flight promise and an already-open socket, `connect`
resolves immediately with that socket and creates no new transport; and
`connect` constructs a transport only when no promise is in flight and no
open socket exists. -/
theorem connect_idempotent_in_flight :
    (∀ (s : WSState) (room : String) (p : Nat), s.connectionPromise = some p →
      connect room s =
        ({ promiseId := p, immediateSocket := none, createdSocket := false }, s)) ∧
    (∀ (s : WSState) (room : String) (sock : Socket),
      s.connectionPromise = none → s.socket = some sock →
      sock.readyState = ReadyState.Open →
      (connect room s).1.immediateSocket = some sock ∧
      (connect room s).1.createdSocket = false ∧
      (connect room s).2.socket = some sock) ∧
    (∀ (s : WSState) (room : String), (connect room s).1.createdSocket = true →
      s.connectionPromise = none ∧
      ∀ sock, s.socket = some sock → sock.readyState ≠ ReadyState.Open) := by
  refine ⟨?_, ?_, ?_⟩
  · intro s room p h
    simp [connect, h]
  · intro s room sock h1 h2 h3
    simp [connect, h1, h2, h3]
  · intro s room h
    cases hp : s.connectionPromise with
    | some p => simp [connect, hp] at h
    | none =>
        refine ⟨rfl, ?_⟩
        intro sock hsock hopen
        simp [connect, hp, hsock, hopen] at h

/-- C2 witness: with promise 7 in flight, a further connect returns promise 7
and changes nothing. -/
theorem connect_idempotent_in_flight_witness :
    connect "lobby" { initialState with connectionPromise := some 7 } =
      ({ promiseId := 7, immediateSocket := none, createdSocket := false },
        { initialState with connectionPromise := some 7 }) :=
  connect_idempotent_in_flight.1 _ "lobby" 7 rfl

/-- C10: while a connection attempt is in flight, the room argument of a
further `connect` call is ignored: the call returns the in-flight promise,
behaves identically for any two rooms, and leaves every piece of state
(socket, its room/URL, reconnection data) unchanged. -/
theorem connect_ignores_room_when_inflight :
    ∀ (s : WSState) (r1 r2 : String) (p : Nat), s.connectionPromise = some p →
      connect r2 s = connect r1 s ∧ (connect r2 s).2 = s ∧
      (connect r2 s).1.promiseId = p := by
  intro s r1 r2 p h
  simp [connect, h]

/-- C10 witness: with promise 3 in flight for room "alpha", connecting to
room "beta" returns promise 3 and the untouched state. -/
theorem connect_ignores_room_when_inflight_witness :
    connect "beta" { initialState with connectionPromise := some 3 } =
      connect "alpha" { initialState with connectionPromise := some 3 } ∧
    (connect "beta" { initialState with connectionPromise := some 3 }).2 =
      { initialState with connectionPromise := some 3 } ∧
    (connect "beta" { initialState with connectionPromise := some 3 }).1.promiseId = 3 :=
  connect_ignores_room_when_inflight _ "alpha" "beta" 3 rfl

/-- C3 counterexample: with subscribers 0 and 1 registered in that order for
chat messages and callback 0 throwing, dispatching an untagged payload
invokes only callback 0 — the later-registered subscriber 1 is never
invoked, refuting per-callback failure isolation. -/
theorem dispatch_isolation_cex :
    (handleMessage (fun n => n == 0) [("message", JVal.jstr "hi")]
        { initialState with messageCallbacks := [0, 1] }).2.1 = [0] ∧
    1 ∉ (handleMessage (fun n => n == 0) [("message", JVal.jstr "hi")]
        { initialState with messageCallbacks := [0, 1] }).2.1 := by
  decide

/-- C3 amended: when an earlier-registered subscriber's callback throws
during dispatch, the dispatch stops at that callback — exactly the
non-throwing earlier subscribers and the throwing one are invoked, no
later-registered subscriber runs, and the exception escapes `handleMessage`;
the surrounding `onmessage` try/catch then catches it and reports a
diagnostic, so the message handler itself still returns normally. -/
theorem dispatch_stops_at_first_throw :
    ∀ (throws : Nat → Bool) (data : JObj) (s : WSState) (pre : List Nat)
      (c : Nat) (post : List Nat),
      callbacksFor s (classify data) = pre ++ c :: post →
      (∀ x ∈ pre, throws x = false) → throws c = true →
      (handleMessage throws data s).2.1 = pre ++ [c] ∧
      (handleMessage throws data s).2.2 = true ∧
      ∀ now : Nat, data.lookup "type" ≠ some (JVal.jstr "pong") →
        onMessageEvent throws now (some data) s =
          ({ s with lastHeartbeat := now },
            { dispatched := some (classify data, pre ++ [c]), diagReported := true }) := by
  intro throws data s pre c post hlist hpre hc
  have hrun : runCallbacks throws (callbacksFor s (classify data)) = (pre ++ [c], true) := by
    rw [hlist]
    exact runCallbacks_append_throw throws pre c post hpre hc
  refine ⟨?_, ?_, ?_⟩
  · simp [handleMessage, hrun]
  · simp [handleMessage, hrun]
  · intro now hpong
    have hlist2 : callbacksFor { s with lastHeartbeat := now } (classify data) =
        pre ++ c :: post := by
      rw [callbacksFor_set_lastHeartbeat]; exact hlist
    have hrun2 : runCallbacks throws
        (callbacksFor { s with lastHeartbeat := now } (classify data)) = (pre ++ [c], true) := by
      rw [hlist2]
      exact runCallbacks_append_throw throws pre c post hpre hc
    simp [onMessageEvent, hpong, handleMessage, hrun2]

/-- C3 amended witness: subscribers 2, 0, 1 for chat messages with callback 0
throwing — dispatch invokes 2 then 0 and stops. -/
theorem dispatch_stops_at_first_throw_witness :
    (handleMessage (fun n => n == 0) [("message", JVal.jstr "hi")]
        { initialState with messageCallbacks := [2, 0, 1] }).2.1 = [2, 0] :=
  (dispatch_stops_at_first_throw (fun n => n == 0) [("message", JVal.jstr "hi")]
    { initialState with messageCallbacks := [2, 0, 1] } [2] 0 [1]
    rfl (by decide) rfl).1

/-- C4: a payload with no recognised type tag is classified as a chat message
(in particular decoding a bare message object yields a chat-message event);
a payload tagged with one of the six recognised inbound tags is dispatched to
exactly the subscriber list of that kind; and a `pong` payload updates the
last-seen timestamp and is dispatched to no subscriber. -/
theorem inbound_classification_dispatch :
    (∀ data : JObj,
      (∀ t ∈ ["reaction", "user_status", "notification", "message_edited",
              "message_deleted", "read_receipt"],
        data.lookup "type" ≠ some (JVal.jstr t)) →
      classify data = EventKind.chatMessage) ∧
    classify [("message", JVal.jstr "hi")] = EventKind.chatMessage ∧
    (∀ (data : JObj) (s : WSState) (throws : Nat → Bool),
      data.lookup "type" = some (JVal.jstr "reaction") →
      handleMessage throws data s =
        (EventKind.reaction, runCallbacks throws s.reactionCallbacks)) ∧
    (∀ (data : JObj) (s : WSState) (throws : Nat → Bool),
      data.lookup "type" = some (JVal.jstr "user_status") →
      handleMessage throws data s =
        (EventKind.userStatus, runCallbacks throws s.userStatusCallbacks)) ∧
    (∀ (data : JObj) (s : WSState) (throws : Nat → Bool),
      data.lookup "type" = some (JVal.jstr "notification") →
      handleMessage throws data s =
        (EventKind.notification, runCallbacks throws s.notificationCallbacks)) ∧
    (∀ (data : JObj) (s : WSState) (throws : Nat → Bool),
      data.lookup "type" = some (JVal.jstr "message_edited") →
      handleMessage throws data s =
        (EventKind.messageEdited, runCallbacks throws s.messageEditedCallbacks)) ∧
    (∀ (data : JObj) (s : WSState) (throws : Nat → Bool),
      data.lookup "type" = some (JVal.jstr "message_deleted") →
      handleMessage throws data s =
        (EventKind.messageDeleted, runCallbacks throws s.messageDeletedCallbacks)) ∧
    (∀ (data : JObj) (s : WSState) (throws : Nat → Bool),
      data.lookup "type" = some (JVal.jstr "read_receipt") →
      handleMessage throws data s =
        (EventKind.readReceipt, runCallbacks throws s.readReceiptCallbacks)) ∧
    (∀ (throws : Nat → Bool) (now : Nat) (data : JObj) (s : WSState),
      data.lookup "type" = some (JVal.jstr "pong") →
      onMessageEvent throws now (some data) s =
        ({ s with lastHeartbeat := now },
          { dispatched := none, diagReported := false })) := by
  refine ⟨?_, by decide, ?_, ?_, ?_, ?_, ?_, ?_, ?_⟩
  · intro data h
    have h1 := h "reaction" (by simp)
    have h2 := h "user_status" (by simp)
    have h3 := h "notification" (by simp)
    have h4 := h "message_edited" (by simp)
    have h5 := h "message_deleted" (by simp)
    have h6 := h "read_receipt" (by simp)
    simp [classify, h1, h2, h3, h4, h5, h6]
  · intro data s throws h
    simp [handleMessage, classify, callbacksFor, h]
  · intro data s throws h
    simp [handleMessage, classify, callbacksFor, h]
  · intro data s throws h
    simp [handleMessage, classify, callbacksFor, h]
  · intro data s throws h
    simp [handleMessage, classify, callbacksFor, h]
  · intro data s throws h
    simp [handleMessage, classify, callbacksFor, h]
  · intro data s throws h
    simp [handleMessage, classify, callbacksFor, h]
  · intro throws now data s h
    simp [onMessageEvent, h]

/-- C4 witness: a reaction-tagged payload with subscriber 4 registered for
reactions dispatches to exactly that reaction subscriber, and a pong payload
updates the timestamp and dispatches nothing. -/
theorem inbound_classification_dispatch_witness :
    handleMessage (fun _ => false)
        [("type", JVal.jstr "reaction"), ("message_id", JVal.jnum 5), ("emoji", JVal.jstr "x")]
        { initialState with reactionCallbacks := [4] } =
      (EventKind.reaction, runCallbacks (fun _ => false) [4]) ∧
    onMessageEvent (fun _ => false) 99 (some [("type", JVal.jstr "pong")]) initialState =
      ({ initialState with lastHeartbeat := 99 },
        { dispatched := none, diagReported := false }) :=
  ⟨inbound_classification_dispatch.2.2.1
      [("type", JVal.jstr "reaction"), ("message_id", JVal.jnum 5), ("emoji", JVal.jstr "x")]
      { initialState with reactionCallbacks := [4] } (fun _ => false) rfl,
    (inbound_classification_dispatch.2.2.2.2.2.2.2.2) (fun _ => false) 99
      [("type", JVal.jstr "pong")] initialState rfl⟩

/-- C5: `disconnect` turns the heartbeat off, cancels any pending reconnect
timer, clears the socket and the in-flight promise and resets the attempt
counter; it closes the transport with code 1000 exactly when one exists and
performs no transport action otherwise (and, being total, raises no
exception); and a close with code 1000 takes the terminal path: the close
handler schedules no reconnect attempt. -/
theorem disconnect_teardown :
    (∀ s : WSState,
      (disconnect s).1 =
        { s with heartbeatOn := false, reconnectTimeout := none, socket := none,
                 connectionPromise := none, reconnectAttempts := 0 }) ∧
    (∀ (s : WSState) (sock : Socket), s.socket = some sock →
      (disconnect s).2 = some (sock.id, 1000)) ∧
    (∀ s : WSState, s.socket = none → (disconnect s).2 = none) ∧
    (∀ s : WSState, handleClose 1000 s =
      ({ s with heartbeatOn := false, connectionPromise := none }, none)) := by
  refine ⟨?_, ?_, ?_, ?_⟩
  · intro s
    rfl
  · intro s sock h
    simp [disconnect, h]
  · intro s h
    simp [disconnect, h]
  · intro s
    simp [handleClose]

/-- C5 witness: disconnecting a state holding an open socket closes it with
code 1000, and disconnecting the fresh (connection-free) state performs no
transport action. -/
theorem disconnect_teardown_witness :
    (disconnect { initialState with
        socket := some { id := 2, readyState := ReadyState.Open, room := "r" } }).2 =
      some (2, 1000) ∧
    (disconnect initialState).2 = none :=
  ⟨disconnect_teardown.2.1 _ { id := 2, readyState := ReadyState.Open, room := "r" } rfl,
    disconnect_teardown.2.2.1 initialState rfl⟩

/-- C6: every outbound command method, invoked while the socket is absent or
not open, writes no frame to the transport; the methods are total (no
exception reaches the caller) and the model has no queue, so nothing is
queued. -/
theorem send_dropped_when_not_open :
    ∀ s : WSState, readyOpen s = false →
      (∀ m r, sendMessage m r s = []) ∧
      (∀ mid e, sendReaction mid e s = []) ∧
      (∀ mid, sendReadReceipt mid s = []) ∧
      (∀ mid c, editMessage mid c s = []) ∧
      (∀ mid, deleteMessage mid s = []) ∧
      (∀ mid c r, replyToMessage mid c r s = []) := by
  intro s h
  refine ⟨?_, ?_, ?_, ?_, ?_, ?_⟩ <;> intros <;>
    simp [sendMessage, sendReaction, sendReadReceipt, editMessage, deleteMessage,
      replyToMessage, h]

/-- C6 witness: on the fresh state (no socket) every command writes nothing. -/
theorem send_dropped_when_not_open_witness :
    sendMessage (JVal.jstr "hi") none initialState = [] ∧
    sendReaction 5 "x" initialState = [] ∧
    replyToMessage 5 "hi" (some 1) initialState = [] :=
  ⟨(send_dropped_when_not_open initialState rfl).1 (JVal.jstr "hi") none,
    (send_dropped_when_not_open initialState rfl).2.1 5 "x",
    (send_dropped_when_not_open initialState rfl).2.2.2.2.2 5 "hi" (some 1)⟩

/-- C7: an inbound frame whose payload fails to parse is reported to the
diagnostic channel and dropped: the handler dispatches to no subscriber,
returns normally (total function, nothing escapes to crash the connection or
the handler), and only the last-seen timestamp changes. -/
theorem malformed_frame_dropped :
    ∀ (throws : Nat → Bool) (now : Nat) (s : WSState),
      onMessageEvent throws now none s =
        ({ s with lastHeartbeat := now },
          { dispatched := none, diagReported := true }) := by
  intro throws now s
  rfl

/-- C8: while the socket is open each outbound command writes exactly one
frame; the bare-message commands (`sendMessage`, `replyToMessage`) carry no
type tag, and every other command carries its explicit type tag with its
fields. -/
theorem outbound_frame_shapes :
    ∀ s : WSState, readyOpen s = true →
      (∀ m r, (sendMessage m r s).length = 1 ∧
        ∀ f ∈ sendMessage m r s,
          f.lookup "type" = none ∧ f.lookup "message" = some m) ∧
      (∀ mid e, sendReaction mid e s =
        [[("type", JVal.jstr "reaction"), ("message_id", JVal.jnum mid),
          ("emoji", JVal.jstr e)]]) ∧
      (∀ mid, sendReadReceipt mid s =
        [[("type", JVal.jstr "read_receipt"), ("message_id", JVal.jnum mid)]]) ∧
      (∀ mid c, editMessage mid c s =
        [[("type", JVal.jstr "edit_message"), ("message_id", JVal.jnum mid),
          ("content", JVal.jstr c)]]) ∧
      (∀ mid, deleteMessage mid s =
        [[("type", JVal.jstr "delete_message"), ("message_id", JVal.jnum mid)]]) ∧
      heartbeatTick s = [[("type", JVal.jstr "ping")]] ∧
      (∀ mid c r, (replyToMessage mid c r s).length = 1 ∧
        ∀ f ∈ replyToMessage mid c r s,
          f.lookup "type" = none ∧ f.lookup "message" = some (JVal.jstr c)) := by
  intro s h
  refine ⟨?_, ?_, ?_, ?_, ?_, ?_, ?_⟩
  · intro m r
    cases r with
    | none =>
        refine ⟨by simp [sendMessage, h], ?_⟩
        intro f hf
        simp [sendMessage, h] at hf
        subst hf
        exact ⟨rfl, rfl⟩
    | some rv =>
        refine ⟨by simp [sendMessage, h], ?_⟩
        intro f hf
        simp [sendMessage, h] at hf
        subst hf
        exact ⟨rfl, rfl⟩
  · intro mid e
    simp [sendReaction, h]
  · intro mid
    simp [sendReadReceipt, h]
  · intro mid c
    simp [editMessage, h]
  · intro mid
    simp [deleteMessage, h]
  · simp [heartbeatTick, h]
  · intro mid c r
    cases r with
    | none =>
        refine ⟨by simp [replyToMessage, h], ?_⟩
        intro f hf
        simp [replyToMessage, h] at hf
        subst hf
        exact ⟨rfl, rfl⟩
    | some rv =>
        refine ⟨by simp [replyToMessage, h], ?_⟩
        intro f hf
        simp [replyToMessage, h] at hf
        subst hf
        exact ⟨rfl, rfl⟩

/-- C8 witness: on a state with an open socket, a reaction command produces
its tagged frame and a bare message produces one untagged frame. -/
theorem outbound_frame_shapes_witness :
    sendReaction 5 "x"
        { initialState with
          socket := some { id := 0, readyState := ReadyState.Open, room := "r" } } =
      [[("type", JVal.jstr "reaction"), ("message_id", JVal.jnum 5),
        ("emoji", JVal.jstr "x")]] ∧
    (sendMessage (JVal.jstr "hi") none
        { initialState with
          socket := some { id := 0, readyState := ReadyState.Open, room := "r" } }).length = 1 :=
  ⟨(outbound_frame_shapes
      { initialState with
        socket := some { id := 0, readyState := ReadyState.Open, room := "r" } }
      rfl).2.1 5 "x",
    ((outbound_frame_shapes
      { initialState with
        socket := some { id := 0, readyState := ReadyState.Open, room := "r" } }
      rfl).1 (JVal.jstr "hi") none).1⟩

/-- C9: `off` with a callback removes the first equal entry from that kind's
list (after a single registration this leaves the list empty and a dispatch
over it invokes nothing); `off` without a callback clears the kind's list
entirely; and duplicate registration is permitted — a twice-registered
callback appears twice and fires twice on dispatch. -/
theorem off_and_duplicate_semantics :
    (∀ (k : EventKind) (cb : Nat) (s : WSState),
      callbacksFor (off (offName k) (some cb) s) k = (callbacksFor s k).erase cb) ∧
    (∀ (k : EventKind) (s : WSState),
      callbacksFor (off (offName k) none s) k = []) ∧
    (∀ (k : EventKind) (cb : Nat) (s : WSState), callbacksFor s k = [] →
      callbacksFor (off (offName k) (some cb) (onEvent k cb s)) k = [] ∧
      ∀ throws : Nat → Bool,
        runCallbacks throws (callbacksFor (off (offName k) (some cb) (onEvent k cb s)) k) =
          ([], false)) ∧
    (∀ (k : EventKind) (cb : Nat) (s : WSState),
      callbacksFor (onEvent k cb (onEvent k cb s)) k = callbacksFor s k ++ [cb, cb]) ∧
    (∀ (cb : Nat) (throws : Nat → Bool), throws cb = false →
      runCallbacks throws [cb, cb] = ([cb, cb], false)) := by
  refine ⟨?_, ?_, ?_, ?_, ?_⟩
  · intro k cb s
    exact off_callbacksFor_some k cb s
  · intro k s
    exact off_callbacksFor_none k s
  · intro k cb s hempty
    have h1 : callbacksFor (off (offName k) (some cb) (onEvent k cb s)) k = [] := by
      rw [off_callbacksFor_some, onEvent_callbacksFor, hempty]
      simp
    exact ⟨h1, fun throws => by rw [h1]; rfl⟩
  · intro k cb s
    rw [onEvent_callbacksFor, onEvent_callbacksFor]
    simp
  · intro cb throws h
    simp [runCallbacks, h]

/-- C9 witness: registering callback 3 for reactions then removing it leaves
no reaction callbacks, and a twice-registered callback 3 fires twice. -/
theorem off_and_duplicate_semantics_witness :
    callbacksFor
        (off "reaction" (some 3) (onEvent EventKind.reaction 3 initialState))
        EventKind.reaction = [] ∧
    runCallbacks (fun _ => false) [3, 3] = ([3, 3], false) :=
  ⟨(off_and_duplicate_semantics.2.2.1 EventKind.reaction 3 initialState rfl).1,
    off_and_duplicate_semantics.2.2.2.2 3 (fun _ => false) rfl⟩

end WS

